import Mathlib

/-!
Shallow embedding of the DrawParty room/game state machine.

Sources embedded here:
- supabase/functions/signaling/index.ts : the action-dispatch edge function
  (create-room, join-room, update-game-state, update-settings, start-game,
  select-word, check-guess, update-score, next-turn, end-game, reveal-word,
  and the default unknown-action branch), plus generateRoomCode.
- src/hooks/useMultiplayerGame.ts (the copy spanning lines 755-1824, which is
  the one the specification cites): sendMessage's correct-guess scoring branch,
  endRound, the host timer effect and the end-round trigger effect.
- src/types/game.ts (unnamed part_003): the GameState record shape.

JSON blobs are modelled as Lean structures; `null`/absent string fields as
`Option String` with `none` standing for "no value present"; JS numbers that
the code treats as integers as `Int`; the exact real-valued scoring formula
(`Math.floor(timePercentage * k)`) as `Int.floor` over `Rat`.
-/

/-- The `game_state` JSON blob persisted in the `rooms` row and replicated to
every connected client (shape from `GameState` in src/types/game.ts plus the
`revealedForPlayers` field the hook adds). `currentWord` is a field of the
blob; `none` models JSON `null` or an absent key. -/
structure GameStateJson where
  phase : String
  currentRound : Int
  totalRounds : Int
  currentDrawerId : Option String
  currentWord : Option String
  wordHint : String
  timeRemaining : Int
  drawTime : Int
  correctGuessers : List String
  revealedForPlayers : List String
deriving Repr, DecidableEq

/-- The `room_secrets` row for a room (the Secret Word Vault). -/
structure RoomSecrets where
  current_word : Option String
  word_options : List String
deriving Repr, DecidableEq

/-- The request body accepted by `settingsSchema` (a `.partial()` zod object):
every field is optional; a present field is validated against its bounds. -/
structure SettingsInput where
  maxPlayers : Option Int
  drawTime : Option Int
  totalRounds : Option Int
  isPublic : Option Bool
  hintLevel : Option Int
  gameMode : Option String
  language : Option String
  wordCount : Option Int
  showHints : Option Bool
deriving Repr, DecidableEq

/-- Bound check for an optional integer field of the partial settings schema:
an absent field passes, a present one must lie in [lo, hi]. -/
def intFieldOk (lo hi : Int) : Option Int → Bool
  | none => true
  | some v => lo ≤ v && v ≤ hi

/-- Enum check for an optional string field of the partial settings schema. -/
def enumFieldOk (allowed : List String) : Option String → Bool
  | none => true
  | some v => allowed.contains v

/-- The zod call `settingsSchema.parse` (index.ts lines 16-26): validates the present
fields of a partial settings object and returns the object unchanged; a field
out of bounds raises, modelled as `Except.error`. -/
def settingsSchemaParse (s : SettingsInput) : Except String SettingsInput :=
  if intFieldOk 2 16 s.maxPlayers && intFieldOk 30 180 s.drawTime
      && intFieldOk 1 10 s.totalRounds && intFieldOk 0 5 s.hintLevel
      && enumFieldOk ["normal", "hidden", "combination"] s.gameMode
      && enumFieldOk ["english", "spanish", "french", "german"] s.language
      && intFieldOk 2 5 s.wordCount
  then Except.ok s else Except.error "ValidationError"

/-- The `update-settings` handler's mutation (index.ts lines 506-536): after
session and host checks it runs `settingsSchema.parse(settings)` and then
executes `update({ settings: validatedSettings })`, which assigns the whole
`settings` JSON column — the previously stored object is not merged in. -/
def updateSettingsHandler (stored req : SettingsInput) :
    Except String SettingsInput :=
  match settingsSchemaParse req with
  | Except.ok v => Except.ok v
  | Except.error e => Except.error e

/-- The `game_state` written by `create-room` (index.ts lines 134-145).
`settings.totalRounds || 3` and `settings.drawTime || 80` on the parsed
partial settings are modelled with `Option.getD` (validated fields are
never 0, so JS falsiness coincides with absence). -/
def createRoomGameState (si : SettingsInput) : GameStateJson :=
  { phase := "lobby"
    currentRound := 0
    totalRounds := si.totalRounds.getD 3
    currentDrawerId := none
    currentWord := none
    wordHint := ""
    timeRemaining := si.drawTime.getD 80
    drawTime := si.drawTime.getD 80
    correctGuessers := []
    revealedForPlayers := [] }

/-- The `room_secrets` row inserted by `create-room` (index.ts lines 155-162). -/
def createRoomSecrets : RoomSecrets :=
  { current_word := none, word_options := [] }

/-- The `update-game-state` handler's sanitisation (index.ts lines 443-450):
`const sanitizedState = { ...gameState }; delete sanitizedState.currentWord;`
before persisting, for any client-supplied game state. -/
def updateGameStateHandler (gs : GameStateJson) : GameStateJson :=
  { gs with currentWord := none }

/-- The `game_state` written by `start-game` (index.ts lines 577-593);
`firstDrawerId = drawingOrder[0]` is `List.head?`. -/
def startGameState (drawTime totalRounds : Int) (drawingOrder : List String) :
    GameStateJson :=
  { phase := "wordSelection"
    currentRound := 1
    totalRounds := totalRounds
    currentDrawerId := drawingOrder.head?
    currentWord := none
    wordHint := ""
    timeRemaining := drawTime
    drawTime := drawTime
    correctGuessers := []
    revealedForPlayers := [] }

/-- The `room_secrets` update performed by `start-game` (index.ts lines
567-574): stores the fresh candidate words, clears the current word. -/
def startGameSecrets (wordOptions : List String) : RoomSecrets :=
  { current_word := none, word_options := wordOptions }

/-- Result of the `select-word` handler: the response plus the post-call
contents of the `rooms.game_state` column and the `room_secrets` row
(unchanged on failure, since the handler returns before any update). -/
structure SelectWordOutcome where
  success : Bool
  error : Option String
  gameState : GameStateJson
  secrets : RoomSecrets
deriving Repr, DecidableEq

/-- The hint built by `select-word` (index.ts line 678):
`word.split('').map(c => c === ' ' ? ' ' : '_').join(' ')` — one output chunk
per character of the word, joined with single spaces. -/
def selectWordHint (word : String) : String :=
  String.intercalate " "
    (word.toList.map (fun c => if c = ' ' then " " else "_"))

/-- The `select-word` handler (index.ts lines 634-708) after the session and
drawer checks: rejects a word not in `word_options` with no mutation;
otherwise stores the word in the vault, clears the candidate list, and writes
`{ ...currentState, phase: 'drawing', wordHint, timeRemaining:
settings.drawTime, correctGuessers: [], revealedForPlayers: [] }`. -/
def selectWord (drawTime : Int) (gs : GameStateJson) (s : RoomSecrets)
    (word : String) : SelectWordOutcome :=
  if word ∈ s.word_options then
    { success := true
      error := none
      gameState :=
        { gs with
          phase := "drawing"
          wordHint := selectWordHint word
          timeRemaining := drawTime
          correctGuessers := []
          revealedForPlayers := [] }
      secrets := { current_word := some word, word_options := [] } }
  else
    { success := false
      error := some "Invalid word selection"
      gameState := gs
      secrets := s }

/-- Model of JavaScript `String.prototype.toLowerCase` (character-wise
lowercasing), written over the character list so it reduces structurally. -/
def jsToLower (s : String) : String := String.mk (s.toList.map Char.toLower)

/-- Model of JavaScript `String.prototype.trim`: strips whitespace from both
ends, written over the character list so it reduces structurally. -/
def jsTrim (s : String) : String :=
  String.mk (((s.toList.dropWhile Char.isWhitespace).reverse.dropWhile
    Char.isWhitespace).reverse)

/-- Response of the `check-guess` handler. -/
structure CheckGuessResp where
  success : Bool
  isCorrect : Bool
  word : Option String
deriving Repr, DecidableEq

/-- The `check-guess` handler (index.ts lines 710-745) after session
validation: `if (!currentWord)` (null or empty string is falsy) returns
`isCorrect: false`; otherwise compares
`guess.toLowerCase().trim() === currentWord.toLowerCase()` and only includes
the literal word in the response when the guess is correct. -/
def checkGuess (s : RoomSecrets) (guess : String) : CheckGuessResp :=
  match s.current_word with
  | none => { success := false, isCorrect := false, word := none }
  | some w =>
    if w = "" then { success := false, isCorrect := false, word := none }
    else
      let isCorrect : Bool := jsTrim (jsToLower guess) == jsToLower w
      { success := true
        isCorrect := isCorrect
        word := if isCorrect then some w else none }

/-- The `game_state` written by `next-turn` (index.ts lines 941-956). -/
def nextTurnState (gs : GameStateJson) (drawTime : Int) (nextDrawerId : String)
    (isNewRound : Bool) (newRound : Int) : GameStateJson :=
  { gs with
    phase := "wordSelection"
    currentRound := if isNewRound then newRound else gs.currentRound
    currentDrawerId := some nextDrawerId
    currentWord := none
    wordHint := ""
    timeRemaining := drawTime
    correctGuessers := []
    revealedForPlayers := [] }

/-- The `room_secrets` update performed by `next-turn` (index.ts lines
922-929). -/
def nextTurnSecrets (wordOptions : List String) : RoomSecrets :=
  { current_word := none, word_options := wordOptions }

/-- The `game_state` written by `end-game` (index.ts lines 991-997). -/
def endGameState (gs : GameStateJson) : GameStateJson :=
  { gs with
    phase := "gameEnd"
    currentWord := none
    wordHint := ""
    revealedForPlayers := [] }

/-- The `room_secrets` update performed by `end-game` (index.ts lines
999-1006). -/
def endGameSecrets : RoomSecrets :=
  { current_word := none, word_options := [] }

/-- A player row as the client hook sees it (id, name, score, isHost are the
fields the scoring and end-round logic reads). -/
structure ClientPlayer where
  id : String
  name : String
  score : Int
  isHost : Bool
deriving Repr, DecidableEq

/-- The expression `Math.floor(timePercentage * 100)` with
`timePercentage = timeRemaining / drawTime` (useMultiplayerGame.ts lines
1432-1434), over exact rationals. -/
def timeBonus (t d : Int) : Int := ⌊((t : Rat) / (d : Rat)) * 100⌋

/-- The guesser's score delta (useMultiplayerGame.ts lines 1432-1436):
`50 + Math.floor(timePercentage * 100)
   + Math.max(0, players.length - correctGuessers.length - 1) * 10`. -/
def guesserPoints (playerCount guessersSoFar : Nat) (t d : Int) : Int :=
  50 + timeBonus t d + max 0 ((playerCount : Int) - (guessersSoFar : Int) - 1) * 10

/-- The drawer's score delta per correct guess (useMultiplayerGame.ts line
1453): `10 + Math.floor(timePercentage * 15)`. -/
def drawerPoints (t d : Int) : Int := 10 + ⌊((t : Rat) / (d : Rat)) * 15⌋

/-- One `update-score` call emitted by the client: the server sets the target
player's `score` column to this absolute value. -/
structure ScoreUpdate where
  targetPlayerId : String
  score : Int
deriving Repr, DecidableEq

/-- The server-side `update-score` validation (index.ts lines 796-802): a
score outside [0, 10000] is rejected. -/
def updateScoreAccepts (score : Int) : Bool := 0 ≤ score && score ≤ 10000

/-- The `update-score` calls emitted by `sendMessage`'s correct-guess branch
(useMultiplayerGame.ts lines 1409-1461), given that the server answered the
`check-guess` call with `isCorrect`. The branch runs only when the sender is
found in the roster, the phase is `drawing`, the sender is not the current
drawer and not already a correct guesser; the two `update-score` calls are
issued only when the sender itself is the host (`if (isHostPlayer)`), and the
drawer update only when the drawer is found in the roster. -/
def correctGuessScoreUpdates (players : List ClientPlayer) (gs : GameStateJson)
    (pid : String) (isCorrect : Bool) : List ScoreUpdate :=
  match players.find? (fun p => p.id == pid) with
  | none => []
  | some player =>
    if gs.phase = "drawing" ∧ gs.currentDrawerId ≠ some pid
        ∧ pid ∉ gs.correctGuessers ∧ isCorrect = true then
      if player.isHost then
        let pts := guesserPoints players.length gs.correctGuessers.length
          gs.timeRemaining gs.drawTime
        let guesserUpd : List ScoreUpdate := [⟨pid, player.score + pts⟩]
        match gs.currentDrawerId with
        | some did =>
          match players.find? (fun p => p.id == did) with
          | some drawer =>
            guesserUpd
              ++ [⟨drawer.id, drawer.score + drawerPoints gs.timeRemaining gs.drawTime⟩]
          | none => guesserUpd
        | none => guesserUpd
      else []
    else []

/-- The locally-set game state after a correct guess (useMultiplayerGame.ts
lines 1464-1468): the guesser is appended to `correctGuessers` and
`revealedForPlayers`. -/
def correctGuessNewState (gs : GameStateJson) (pid : String) : GameStateJson :=
  { gs with
    correctGuessers := gs.correctGuessers ++ [pid]
    revealedForPlayers := gs.revealedForPlayers ++ [pid] }

/-- The end-round trigger effect (useMultiplayerGame.ts lines 1740-1753):
fires `endRound()` exactly when the phase is `drawing`, the local player is
the host, and `timeRemaining <= 0` or `correctGuessers.length >=
players.filter(p => p.id !== currentDrawerId).length`. -/
def endRoundTrigger (players : List ClientPlayer) (selfId : String)
    (gs : GameStateJson) : Bool :=
  if gs.phase ≠ "drawing" then false
  else
    match players.find? (fun p => p.id == selfId) with
    | none => false
    | some self =>
      if !self.isHost then false
      else
        let nonDrawerCount :=
          (players.filter (fun p => !(some p.id == gs.currentDrawerId))).length
        decide (gs.timeRemaining ≤ 0) || decide (gs.correctGuessers.length ≥ nonDrawerCount)

/-- Observable actions emitted by the client's `endRound` (signaling calls and
the scheduled turn advancement). -/
inductive Effect where
  | callRevealWord
  | persistGameState (gs : GameStateJson)
  | systemMessage (content : String)
  | scheduleNextTurn (delayMs : Nat)
deriving Repr, DecidableEq

/-- The client's `endRound` (useMultiplayerGame.ts lines 1596-1626): calls
`reveal-word`, sets phase `revealing` with `revealedForPlayers` = every player
id, persists that state, broadcasts `The word was: <w>` when the reveal
returned a word, and schedules `nextTurn` after a fixed 3000 ms. -/
def endRound (players : List ClientPlayer) (gs : GameStateJson)
    (revealedWord : Option String) : GameStateJson × List Effect :=
  let newGs :=
    { gs with
      phase := "revealing"
      revealedForPlayers := players.map (fun p => p.id) }
  (newGs,
    [Effect.callRevealWord, Effect.persistGameState newGs]
      ++ (match revealedWord with
          | some w => [Effect.systemMessage ("The word was: " ++ w)]
          | none => [])
      ++ [Effect.scheduleNextTurn 3000])

/-- One tick of the host's timer (useMultiplayerGame.ts lines 1699-1728):
while `timeRemaining <= 0` the state is left alone, otherwise only
`timeRemaining` is decremented; at the 60%/40%/20% thresholds the client also
fires a `reveal-hint` signaling call (see `handleRevealHint`), which performs
no mutation. -/
def hostTick (gs : GameStateJson) : GameStateJson :=
  if gs.timeRemaining ≤ 0 then gs
  else { gs with timeRemaining := gs.timeRemaining - 1 }

/-- The server's handling of the client's `reveal-hint` action: `reveal-hint`
matches no case of the dispatch switch, so it reaches the `default` branch
(index.ts lines 1052-1056), which returns `{ success: false, error: 'Unknown
action' }` and touches neither `rooms` nor `room_secrets`. -/
def handleRevealHint (gs : GameStateJson) (s : RoomSecrets) :
    (GameStateJson × RoomSecrets) × (Bool × Option String) :=
  ((gs, s), (false, some "Unknown action"))

/-- The persisted game state after one host tick: the client sends the
decremented state through `update-game-state`, which strips `currentWord`. -/
def tickStored (gs : GameStateJson) : GameStateJson :=
  updateGameStateHandler (hostTick gs)

/-- The persisted game state after `n` host ticks. -/
def iterTicks : Nat → GameStateJson → GameStateJson
  | 0, gs => gs
  | n + 1, gs => iterTicks n (tickStored gs)

/-- Whether position `i` of the hint shows a revealed character (anything but
the `_` placeholder). -/
def revealedAt (hint : String) (i : Nat) : Bool :=
  match hint.toList.get? i with
  | some c => decide (c ≠ '_')
  | none => false

/-- Number of revealed letter positions of a hint (characters that are neither
the `_` placeholder nor a space). -/
def revealedLetterCount (hint : String) : Nat :=
  (hint.toList.filter (fun c => c ≠ '_' && c ≠ ' ')).length

/-- The room-code alphabet of `generateRoomCode` (index.ts lines 1068-1071). -/
def roomCodeAlphabet : List Char := "ABCDEFGHIJKLMNOPQRSTUVWXYZ0123456789".toList

/-- The function `generateRoomCode` (index.ts lines 1068-1071): six draws of
`chars[Math.floor(Math.random() * chars.length)]`; each random draw is
modelled by a natural number taken modulo 36. -/
def generateRoomCode (rand : Fin 6 → Nat) : String :=
  String.mk ((List.finRange 6).map (fun i => roomCodeAlphabet.getD (rand i % 36) 'A'))

/-- The code-generation path of `create-room` (index.ts lines 103-153):
`generateRoomCode` is called once, with no uniqueness probe and no retry; the
`rooms.code` column is UNIQUE (migration 20251207193205), so inserting a code
that some live room already holds makes the insert fail and the handler throw
(`if (roomError) throw roomError`). -/
def createRoomCode (existing : List String) (rand : Fin 6 → Nat) :
    Except String String :=
  let code := generateRoomCode rand
  if code ∈ existing then Except.error "duplicate room code"
  else Except.ok code

/-- A `room_players` row (the columns join-room reads and writes). -/
structure PlayerRow where
  player_id : String
  player_name : String
  is_host : Bool
  is_ready : Bool
  is_connected : Bool
deriving Repr, DecidableEq

/-- The columns of a `rooms` row that `join-room` consults. -/
structure RoomRow where
  code : String
  phase : String
  maxPlayers : Int
deriving Repr, DecidableEq

/-- The typed failures of `join-room`. -/
inductive JoinError where
  | roomNotFound
  | gameInProgress
  | roomFull
deriving Repr, DecidableEq

/-- Result of `join-room`: the response plus the resulting `room_players`
rows of the matched room. -/
structure JoinResult where
  error : Option JoinError
  reconnected : Bool
  players : List PlayerRow
deriving Repr, DecidableEq

/-- The `join-room` handler (index.ts lines 210-373). `playersIn` is the
`room_players` table of the matched room. In source order: unmatched code →
`Room not found`; phase other than `lobby` → `Game already in progress`;
same-name row → reconnect in place (no insert); same-id row → reconnect;
`playerCount >= settings.maxPlayers` → `Room is full` with no insert;
otherwise a new non-host row is inserted. -/
def joinRoom (rooms : List RoomRow) (playersIn : List PlayerRow)
    (code playerName playerId : String) : JoinResult :=
  match rooms.find? (fun r => r.code == code) with
  | none => ⟨some JoinError.roomNotFound, false, playersIn⟩
  | some room =>
    if room.phase ≠ "lobby" then ⟨some JoinError.gameInProgress, false, playersIn⟩
    else
      match playersIn.find? (fun p => p.player_name == playerName) with
      | some _ =>
        ⟨none, true,
          playersIn.map (fun p =>
            if p.player_name == playerName then
              { p with is_connected := true, player_id := playerId }
            else p)⟩
      | none =>
        match playersIn.find? (fun p => p.player_id == playerId) with
        | some _ =>
          ⟨none, true,
            playersIn.map (fun p =>
              if p.player_id == playerId then { p with is_connected := true } else p)⟩
        | none =>
          if (playersIn.length : Int) ≥ room.maxPlayers then
            ⟨some JoinError.roomFull, false, playersIn⟩
          else
            ⟨none, false, playersIn ++ [⟨playerId, playerName, false, false, true⟩]⟩

/-- A game state in the `wordSelection` phase, as stored after `start-game`
with drawer `A` and an 80-second draw time (concrete fixture). -/
def gsSelEx : GameStateJson :=
  { phase := "wordSelection", currentRound := 1, totalRounds := 3
    currentDrawerId := some "A", currentWord := none, wordHint := ""
    timeRemaining := 80, drawTime := 80
    correctGuessers := [], revealedForPlayers := [] }

/-- A vault row offering three candidate words (concrete fixture). -/
def secretsSelEx : RoomSecrets := ⟨none, ["hi", "sun", "cat"]⟩

/-- A three-player roster: host Alice, plus Bob and Cara (concrete fixture). -/
def playersEx : List ClientPlayer :=
  [⟨"A", "Alice", 0, true⟩, ⟨"B", "Bob", 0, false⟩, ⟨"C", "Cara", 5, false⟩]

/-- A drawing-phase state: Cara is the drawer, 40 of 80 seconds remain
(concrete fixture). -/
def gsDrawEx : GameStateJson :=
  { phase := "drawing", currentRound := 1, totalRounds := 3
    currentDrawerId := some "C", currentWord := none, wordHint := "_ _"
    timeRemaining := 40, drawTime := 80
    correctGuessers := [], revealedForPlayers := [] }

/-- The drawing-phase fixture with the timer expired. -/
def gsEndEx : GameStateJson := { gsDrawEx with timeRemaining := 0 }

/-- The drawing-phase fixture with one letter already revealed in the hint. -/
def gsHintEx : GameStateJson := { gsDrawEx with wordHint := "_ a" }

/-- A concrete sequence of random draws for `generateRoomCode`. -/
def randEx : Fin 6 → Nat := fun i => i.val

/-- A one-room directory holding a two-seat lobby room (concrete fixture). -/
def roomsEx : List RoomRow := [⟨"ABC123", "lobby", 2⟩]

/-- A one-room directory whose room is mid-game (concrete fixture). -/
def roomsBusyEx : List RoomRow := [⟨"ABC123", "drawing", 8⟩]

/-- Two player rows filling the two-seat room (concrete fixture). -/
def rowsEx : List PlayerRow :=
  [⟨"p1", "Alice", true, true, true⟩, ⟨"p2", "Bob", false, false, true⟩]

/-- A partial settings request carrying only `maxPlayers` and `drawTime`
(concrete fixture). -/
def reqEx : SettingsInput :=
  ⟨some 4, some 60, none, some true, none, none, none, none, none⟩

/-- A fully-populated stored settings object (concrete fixture). -/
def storedEx : SettingsInput :=
  ⟨some 8, some 80, some 3, some true, some 2, some "normal", some "english",
    some 3, some true⟩

/-- A second stored settings object differing from `storedEx` (concrete
fixture). -/
def storedEx2 : SettingsInput :=
  ⟨some 16, some 30, some 10, some false, some 5, some "hidden", some "french",
    some 2, some false⟩

/-- Modelled from the spec's words, for comparison with `selectWordHint`
(claim C2): the initial hint is "an underscore for every letter, spaces
preserved" — one output character per word character. -/
def specInitialHint (w : String) : String :=
  String.mk (w.toList.map (fun c => if c = ' ' then ' ' else '_'))

/-- For any list, the elements failing a predicate and those passing it
together count the whole list. -/
theorem length_filter_not_add {α : Type} (l : List α) (p : α → Bool) :
    (l.filter (fun a => !(p a))).length + (l.filter p).length = l.length := by
  induction l with
  | nil => rfl
  | cons a t ih =>
    by_cases h : p a = true <;>
      simp only [List.filter, h, Bool.not_true, Bool.not_false, List.length_cons] <;>
      omega

/-- The persisted `wordHint` is untouched by a host timer tick, hence by any
number of them. -/
theorem wordHint_iterTicks (n : Nat) (gs : GameStateJson) :
    (iterTicks n gs).wordHint = gs.wordHint := by
  induction n generalizing gs with
  | zero => rfl
  | succ n ih =>
    have hstep : (tickStored gs).wordHint = gs.wordHint := by
      unfold tickStored updateGameStateHandler hostTick
      split <;> rfl
    calc (iterTicks (n + 1) gs).wordHint
        = (iterTicks n (tickStored gs)).wordHint := rfl
      _ = (tickStored gs).wordHint := ih (tickStored gs)
      _ = gs.wordHint := hstep

/-- C1: the literal secret word is never a field value of the persisted
`game_state`: `create-room`, `start-game`, `next-turn` and `end-game` write
`currentWord: null`, `update-game-state` deletes the field from any
client-supplied state, and `select-word` spreads the stored state (whose
`currentWord` is null) while writing the chosen word only to the
`room_secrets` vault row. -/
theorem c1_secret_never_in_game_state
    (si : SettingsInput) (gs gsAny : GameStateJson) (s : RoomSecrets)
    (dt tr nr : Int) (ord : List String) (w nd : String) (inr : Bool)
    (hnone : gs.currentWord = none) :
    (createRoomGameState si).currentWord = none
    ∧ (updateGameStateHandler gsAny).currentWord = none
    ∧ (startGameState dt tr ord).currentWord = none
    ∧ ((selectWord dt gs s w).gameState).currentWord = none
    ∧ (nextTurnState gsAny dt nd inr nr).currentWord = none
    ∧ (endGameState gsAny).currentWord = none
    ∧ (w ∈ s.word_options → (selectWord dt gs s w).secrets.current_word = some w) := by
  refine ⟨rfl, rfl, rfl, ?_, rfl, rfl, ?_⟩
  · unfold selectWord
    by_cases h : w ∈ s.word_options <;> simp [h, hnone]
  · intro h
    simp [selectWord, h]

/-- Witness for C1: a concrete successful `select-word` call leaves the
persisted state's `currentWord` empty and stores the word in the vault. -/
theorem c1_secret_never_in_game_state_witness :
    ((selectWord 80 gsSelEx secretsSelEx "sun").gameState).currentWord = none
    ∧ (selectWord 80 gsSelEx secretsSelEx "sun").secrets.current_word = some "sun" := by
  have h := c1_secret_never_in_game_state
    ⟨none, none, none, none, none, none, none, none, none⟩
    gsSelEx gsSelEx secretsSelEx 80 3 2 [] "sun" "B" false rfl
  exact ⟨h.2.2.2.1, h.2.2.2.2.2.2 (by decide)⟩

/-- C2 counterexample: `select-word` with the in-list word "hi" succeeds but
sets `wordHint` to "_ _" (underscores joined by spaces), not to the
underscore-per-letter string "__" the claim describes. -/
theorem c2_hint_format_counterexample :
    (selectWord 80 gsSelEx secretsSelEx "hi").success = true
    ∧ (selectWord 80 gsSelEx secretsSelEx "hi").gameState.wordHint
        ≠ specInitialHint "hi" := by
  constructor
  · decide
  · decide

/-- C2 (amended): a `select-word` call by the drawer with a word in the
stored candidate list succeeds, stores the word as the vault's current word,
clears the candidate list, sets `wordHint` to one chunk per character —
underscore for a letter, space for a space — joined with single spaces,
moves the phase to `drawing`, resets `timeRemaining` to the settings' draw
time, and clears `correctGuessers` and `revealedForPlayers`. -/
theorem c2_select_word_success (dt : Int) (gs : GameStateJson) (s : RoomSecrets)
    (word : String) (h : word ∈ s.word_options) :
    (selectWord dt gs s word).success = true
    ∧ (selectWord dt gs s word).secrets.current_word = some word
    ∧ (selectWord dt gs s word).secrets.word_options = []
    ∧ (selectWord dt gs s word).gameState.wordHint
        = String.intercalate " "
            (word.toList.map (fun c => if c = ' ' then " " else "_"))
    ∧ (selectWord dt gs s word).gameState.phase = "drawing"
    ∧ (selectWord dt gs s word).gameState.timeRemaining = dt
    ∧ (selectWord dt gs s word).gameState.correctGuessers = []
    ∧ (selectWord dt gs s word).gameState.revealedForPlayers = [] := by
  simp [selectWord, h, selectWordHint]

/-- Witness for C2 (amended) at a concrete call. -/
theorem c2_select_word_success_witness :
    (selectWord 80 gsSelEx secretsSelEx "sun").success = true
    ∧ (selectWord 80 gsSelEx secretsSelEx "sun").secrets.current_word = some "sun"
    ∧ (selectWord 80 gsSelEx secretsSelEx "sun").gameState.phase = "drawing" := by
  have h := c2_select_word_success 80 gsSelEx secretsSelEx "sun" (by decide)
  exact ⟨h.1, h.2.1, h.2.2.2.2.1⟩

/-- C3: a `select-word` call whose word is not among the stored candidate
options fails with the `Invalid word selection` error and mutates neither the
vault row nor the game state. -/
theorem c3_invalid_selection (dt : Int) (gs : GameStateJson) (s : RoomSecrets)
    (word : String) (h : word ∉ s.word_options) :
    (selectWord dt gs s word).success = false
    ∧ (selectWord dt gs s word).error = some "Invalid word selection"
    ∧ (selectWord dt gs s word).secrets = s
    ∧ (selectWord dt gs s word).gameState = gs := by
  simp [selectWord, h]

/-- Witness for C3 at a concrete call with a word never offered. -/
theorem c3_invalid_selection_witness :
    (selectWord 80 gsSelEx secretsSelEx "dog").success = false
    ∧ (selectWord 80 gsSelEx secretsSelEx "dog").error
        = some "Invalid word selection"
    ∧ (selectWord 80 gsSelEx secretsSelEx "dog").secrets = secretsSelEx := by
  have h := c3_invalid_selection 80 gsSelEx secretsSelEx "dog" (by decide)
  exact ⟨h.1, h.2.1, h.2.2.1⟩

/-- C4: `check-guess` answers true exactly when the lowercased, trimmed guess
equals the lowercased stored word; with no stored word it answers false
rather than an error; and a failed guess never receives the literal word. -/
theorem c4_check_guess (s : RoomSecrets) (guess : String) :
    (s.current_word = none →
      checkGuess s guess = ⟨false, false, none⟩)
    ∧ (∀ w, s.current_word = some w → w ≠ "" →
        ((checkGuess s guess).isCorrect = true
          ↔ jsTrim (jsToLower guess) = jsToLower w))
    ∧ ((checkGuess s guess).isCorrect = false →
        (checkGuess s guess).word = none) := by
  refine ⟨?_, ?_, ?_⟩
  · intro h
    simp [checkGuess, h]
  · intro w hw hne
    simp [checkGuess, hw, hne]
  · intro h
    rcases hcw : s.current_word with _ | w
    · simp [checkGuess, hcw]
    · by_cases hw : w = ""
      · simp [checkGuess, hcw, hw]
      · simp only [checkGuess, hcw, hw, if_neg, reduceIte] at h ⊢
        simp [h]

/-- Witness for C4: concrete guesses against a stored word "apple" and
against an empty vault. -/
theorem c4_check_guess_witness :
    (checkGuess ⟨some "apple", []⟩ " APPLE ").isCorrect = true
    ∧ (checkGuess ⟨some "apple", []⟩ "pear").word = none
    ∧ checkGuess ⟨none, []⟩ "pear" = ⟨false, false, none⟩ := by
  refine ⟨?_, ?_, ?_⟩
  · exact ((c4_check_guess ⟨some "apple", []⟩ " APPLE ").2.1 "apple" rfl
      (by decide)).mpr (by decide)
  · exact (c4_check_guess ⟨some "apple", []⟩ "pear").2.2 (by decide)
  · exact (c4_check_guess ⟨none, []⟩ "pear").1 rfl

/-- C5 counterexample: Bob (not the host) guesses correctly during drawing
with 40 of 80 seconds left, yet the client emits no `update-score` call at
all, while the claim's formula demands a strictly positive guesser delta of
120 and a drawer delta of 17. -/
theorem c5_nonhost_guesser_counterexample :
    correctGuessScoreUpdates playersEx gsDrawEx "B" true = []
    ∧ guesserPoints 3 0 40 80 = 120
    ∧ drawerPoints 40 80 = 17 := by
  refine ⟨by decide, ?_, ?_⟩
  · unfold guesserPoints timeBonus
    norm_num
  · unfold drawerPoints
    norm_num

/-- C5 (amended): when the correct guesser is additionally the room host, the
client emits exactly two `update-score` calls: the guesser's score plus
`50 + floor(timePercentage * 100) + max(0, playerCount - correctGuessersSoFar
- 1) * 10`, and the drawer's score plus `10 + floor(timePercentage * 15)`;
a non-host guesser triggers no score update. -/
theorem c5_scoring_when_host_guesses
    (players : List ClientPlayer) (gs : GameStateJson) (pid did : String)
    (player drawer : ClientPlayer)
    (hfind : players.find? (fun p => p.id == pid) = some player)
    (hhost : player.isHost = true)
    (hphase : gs.phase = "drawing")
    (hdid : gs.currentDrawerId = some did)
    (hne : did ≠ pid)
    (hnotg : pid ∉ gs.correctGuessers)
    (hdrawer : players.find? (fun p => p.id == did) = some drawer) :
    correctGuessScoreUpdates players gs pid true =
      [⟨pid, player.score
          + guesserPoints players.length gs.correctGuessers.length
              gs.timeRemaining gs.drawTime⟩,
       ⟨drawer.id, drawer.score + drawerPoints gs.timeRemaining gs.drawTime⟩] := by
  have hcond : gs.phase = "drawing" ∧ gs.currentDrawerId ≠ some pid
      ∧ pid ∉ gs.correctGuessers ∧ True := by
    refine ⟨hphase, ?_, hnotg, trivial⟩
    rw [hdid]
    simp [hne]
  simp only [correctGuessScoreUpdates, hfind]
  rw [if_pos hcond, if_pos hhost]
  simp only [hdid, hdrawer]
  simp

/-- Witness for C5 (amended): host Alice guesses Cara's word with 40 of 80
seconds left and the two emitted updates carry scores 120 and 22. -/
theorem c5_scoring_when_host_guesses_witness :
    correctGuessScoreUpdates playersEx gsDrawEx "A" true
      = [⟨"A", 120⟩, ⟨"C", 22⟩] := by
  have h := c5_scoring_when_host_guesses playersEx gsDrawEx "A" "C"
    ⟨"A", "Alice", 0, true⟩ ⟨"C", "Cara", 5, false⟩
    (by decide) rfl rfl rfl (by decide) (by decide) (by decide)
  rw [h]
  norm_num [playersEx, gsDrawEx, guesserPoints, timeBonus, drawerPoints]

/-- C6: with the drawer on the roster, the host's trigger fires exactly when
the time is up or everyone but the drawer has guessed; `endRound` then moves
the phase to `revealing`, entitles every player to the word, calls the
vault's `reveal-word`, broadcasts the revealed word as a system message, and
schedules the turn advancement after a fixed 3000 ms. -/
theorem c6_round_termination
    (players : List ClientPlayer) (selfId : String) (self : ClientPlayer)
    (gs : GameStateJson) (w : String)
    (hfind : players.find? (fun p => p.id == selfId) = some self)
    (hhost : self.isHost = true)
    (hphase : gs.phase = "drawing")
    (hdrawer : (players.filter (fun p => some p.id == gs.currentDrawerId)).length = 1) :
    (endRoundTrigger players selfId gs = true
      ↔ (gs.timeRemaining ≤ 0 ∨ gs.correctGuessers.length ≥ players.length - 1))
    ∧ (endRound players gs (some w)).1.phase = "revealing"
    ∧ (endRound players gs (some w)).1.revealedForPlayers
        = players.map (fun p => p.id)
    ∧ Effect.callRevealWord ∈ (endRound players gs (some w)).2
    ∧ Effect.systemMessage ("The word was: " ++ w) ∈ (endRound players gs (some w)).2
    ∧ Effect.scheduleNextTurn 3000 ∈ (endRound players gs (some w)).2 := by
  have hlen := length_filter_not_add players
    (fun p => some p.id == gs.currentDrawerId)
  have hnd : (players.filter
      (fun p => !(some p.id == gs.currentDrawerId))).length = players.length - 1 := by
    rw [hdrawer] at hlen
    omega
  refine ⟨?_, rfl, rfl, ?_, ?_, ?_⟩
  · unfold endRoundTrigger
    rw [hfind]
    simp [hphase, hhost, hnd]
  · simp [endRound]
  · simp [endRound]
  · simp [endRound]

/-- Witness for C6: with the timer at zero in the concrete room, the trigger
fires and the end-round effects carry the reveal broadcast and the 3-second
turn advancement. -/
theorem c6_round_termination_witness :
    endRoundTrigger playersEx "A" gsEndEx = true
    ∧ (endRound playersEx gsEndEx (some "apple")).1.phase = "revealing"
    ∧ Effect.systemMessage ("The word was: " ++ "apple")
        ∈ (endRound playersEx gsEndEx (some "apple")).2
    ∧ Effect.scheduleNextTurn 3000 ∈ (endRound playersEx gsEndEx (some "apple")).2 := by
  have h := c6_round_termination playersEx "A" ⟨"A", "Alice", 0, true⟩
    gsEndEx "apple" (by decide) rfl rfl (by decide)
  exact ⟨h.1.mpr (Or.inl (by decide)), h.2.1, h.2.2.2.2.1, h.2.2.2.2.2⟩

/-- C7 counterexample: when the single generated code collides with a live
room's code, `create-room` fails on the UNIQUE insert instead of
regenerating. -/
theorem c7_collision_counterexample :
    generateRoomCode (fun _ => 0) = "AAAAAA"
    ∧ createRoomCode ["AAAAAA"] (fun _ => 0) = Except.error "duplicate room code" := by
  constructor
  · rfl
  · rfl

/-- C7 (amended): every generated code is exactly 6 uppercase alphanumeric
characters; `create-room` performs no uniqueness probe — if the one generated
code is free of the live codes the call returns it, and if it collides the
insert fails and the call errors rather than regenerating. -/
theorem c7_room_code (rand : Fin 6 → Nat) (existing : List String) :
    (generateRoomCode rand).length = 6
    ∧ (∀ c ∈ (generateRoomCode rand).toList,
        ('A' ≤ c ∧ c ≤ 'Z') ∨ ('0' ≤ c ∧ c ≤ '9'))
    ∧ (generateRoomCode rand ∉ existing →
        createRoomCode existing rand = Except.ok (generateRoomCode rand))
    ∧ (generateRoomCode rand ∈ existing →
        createRoomCode existing rand = Except.error "duplicate room code") := by
  have hmk : ∀ l : List Char, (String.mk l).length = l.length := fun _ => rfl
  have htl : ∀ l : List Char, (String.mk l).toList = l := fun _ => rfl
  refine ⟨?_, ?_, ?_, ?_⟩
  · unfold generateRoomCode
    rw [hmk, List.length_map, List.length_finRange]
  · intro c hc
    unfold generateRoomCode at hc
    rw [htl, List.mem_map] at hc
    obtain ⟨i, -, rfl⟩ := hc
    have hin : roomCodeAlphabet.getD (rand i % 36) 'A' ∈ roomCodeAlphabet := by
      unfold List.getD
      cases h : roomCodeAlphabet.get? (rand i % 36) with
      | none => simp [Option.getD]; decide
      | some x =>
        have := List.get?_mem h
        simpa [Option.getD, h] using this
    have hall : ∀ x ∈ roomCodeAlphabet,
        ('A' ≤ x ∧ x ≤ 'Z') ∨ ('0' ≤ x ∧ x ≤ '9') := by decide
    exact hall _ hin
  · intro h
    simp [createRoomCode, h]
  · intro h
    simp [createRoomCode, h]

/-- Witness for C7 (amended): a concrete collision-free draw yields a 6-long
code accepted as a fresh room code. -/
theorem c7_room_code_witness :
    (generateRoomCode randEx).length = 6
    ∧ createRoomCode ["ZZZZZZ"] randEx = Except.ok (generateRoomCode randEx) := by
  have h := c7_room_code randEx ["ZZZZZZ"]
  exact ⟨h.1, h.2.2.1 (by decide)⟩

/-- C8: hint revelation is monotonic during the drawing phase — under the
host's timer ticks the persisted `wordHint` never changes at all (the
client's `reveal-hint` action lands in the server's unknown-action branch,
which mutates nothing), so a revealed letter position never re-hides and the
revealed-letter count never decreases. -/
theorem c8_hint_monotonic (gs : GameStateJson) (s : RoomSecrets) (m n : Nat)
    (hphase : gs.phase = "drawing") (hmn : m ≤ n) :
    (∀ i, revealedAt ((iterTicks m gs).wordHint) i = true →
        revealedAt ((iterTicks n gs).wordHint) i = true)
    ∧ revealedLetterCount ((iterTicks m gs).wordHint)
        ≤ revealedLetterCount ((iterTicks n gs).wordHint)
    ∧ (handleRevealHint gs s).1 = (gs, s) := by
  rw [wordHint_iterTicks m gs, wordHint_iterTicks n gs]
  exact ⟨fun i h => h, le_refl _, rfl⟩

/-- Witness for C8: in the concrete drawing-phase state, the letter revealed
at position 2 is still revealed two ticks later and the revealed count has
not decreased. -/
theorem c8_hint_monotonic_witness :
    revealedAt ((iterTicks 3 gsHintEx).wordHint) 2 = true
    ∧ revealedLetterCount ((iterTicks 1 gsHintEx).wordHint)
        ≤ revealedLetterCount ((iterTicks 3 gsHintEx).wordHint) := by
  have h := c8_hint_monotonic gsHintEx ⟨some "qa", []⟩ 1 3 rfl (by decide)
  exact ⟨h.1 2 (by decide), h.2.1⟩

/-- C9: `join-room` fails with `Room not found` when no room matches the
code, with `Game already in progress` when the matched room is out of the
lobby phase, and — for a genuinely new player (neither name nor id already
seated) — with `Room is full` when the player count has reached
`settings.maxPlayers`, in which case no player row is created. -/
theorem c9_join_room_errors (rooms : List RoomRow) (players : List PlayerRow)
    (code name pid : String) :
    (rooms.find? (fun r => r.code == code) = none →
      joinRoom rooms players code name pid
        = ⟨some JoinError.roomNotFound, false, players⟩)
    ∧ (∀ room, rooms.find? (fun r => r.code == code) = some room →
        room.phase ≠ "lobby" →
        joinRoom rooms players code name pid
          = ⟨some JoinError.gameInProgress, false, players⟩)
    ∧ (∀ room, rooms.find? (fun r => r.code == code) = some room →
        room.phase = "lobby" →
        players.find? (fun p => p.player_name == name) = none →
        players.find? (fun p => p.player_id == pid) = none →
        (players.length : Int) ≥ room.maxPlayers →
        joinRoom rooms players code name pid
          = ⟨some JoinError.roomFull, false, players⟩) := by
  refine ⟨?_, ?_, ?_⟩
  · intro h
    simp [joinRoom, h]
  · intro room h hph
    simp [joinRoom, h, hph]
  · intro room h hph hname hid hfull
    simp [joinRoom, h, hph, hname, hid, hfull]

/-- Witness for C9: against the concrete two-seat room, a wrong code, a
mid-game join, and a join into the full lobby produce the three failures,
the last leaving the player rows untouched. -/
theorem c9_join_room_errors_witness :
    joinRoom roomsEx rowsEx "ZZZZZZ" "Zoe" "p9"
      = ⟨some JoinError.roomNotFound, false, rowsEx⟩
    ∧ joinRoom roomsBusyEx rowsEx "ABC123" "Zoe" "p9"
      = ⟨some JoinError.gameInProgress, false, rowsEx⟩
    ∧ joinRoom roomsEx rowsEx "ABC123" "Zoe" "p9"
      = ⟨some JoinError.roomFull, false, rowsEx⟩ := by
  refine ⟨?_, ?_, ?_⟩
  · exact (c9_join_room_errors roomsEx rowsEx "ZZZZZZ" "Zoe" "p9").1 (by decide)
  · exact (c9_join_room_errors roomsBusyEx rowsEx "ABC123" "Zoe" "p9").2.1
      ⟨"ABC123", "drawing", 8⟩ (by decide) (by decide)
  · exact (c9_join_room_errors roomsEx rowsEx "ABC123" "Zoe" "p9").2.2
      ⟨"ABC123", "lobby", 2⟩ (by decide) rfl (by decide) (by decide) (by decide)

/-- C10: a valid `update-settings` request replaces the stored settings
object wholesale with exactly the validated request: the result is
independent of what was stored before, and every field omitted from the
request is absent afterwards. -/
theorem c10_update_settings_wholesale (stored stored2 req : SettingsInput)
    (h : settingsSchemaParse req = Except.ok req) :
    updateSettingsHandler stored req = Except.ok req
    ∧ updateSettingsHandler stored req = updateSettingsHandler stored2 req
    ∧ (req.maxPlayers = none → ∀ v,
        updateSettingsHandler stored req = Except.ok v → v.maxPlayers = none)
    ∧ (req.drawTime = none → ∀ v,
        updateSettingsHandler stored req = Except.ok v → v.drawTime = none)
    ∧ (req.totalRounds = none → ∀ v,
        updateSettingsHandler stored req = Except.ok v → v.totalRounds = none) := by
  have e : ∀ st : SettingsInput, updateSettingsHandler st req = Except.ok req := by
    intro st
    unfold updateSettingsHandler
    rw [h]
  refine ⟨e stored, (e stored).trans (e stored2).symm, ?_, ?_, ?_⟩ <;>
    · intro hf v hv
      rw [e stored] at hv
      injection hv with hv
      subst hv
      exact hf

/-- Witness for C10: a concrete request carrying only `maxPlayers` and
`drawTime` replaces two different stored settings objects identically, and
the omitted `totalRounds` is absent afterwards. -/
theorem c10_update_settings_wholesale_witness :
    updateSettingsHandler storedEx reqEx = Except.ok reqEx
    ∧ updateSettingsHandler storedEx reqEx = updateSettingsHandler storedEx2 reqEx
    ∧ (∀ v, updateSettingsHandler storedEx reqEx = Except.ok v →
        v.totalRounds = none) := by
  have h := c10_update_settings_wholesale storedEx storedEx2 reqEx (by rfl)
  exact ⟨h.1, h.2.1, h.2.2.2.2 rfl⟩
